import Mathlib

/-
Verification of the agent-pool diff logic (azure/services/agentpools/spec.go)
and of the virtual-machine service (Get / Reconcile payload construction /
Delete, image resolution) of the cluster-api-provider-azure repository.

Go values are embedded shallowly:
* Go pointers (`*T`) become `Option T`; dereference of a possibly-nil pointer
  is modelled explicitly.
* `map[string]*string` becomes an association list (`LabelMap`); Go map
  equality as computed by cmp.Diff (same key set, equal values, nil map
  distinct from empty map) is `labelsEq`.
* Failure becomes `Except` / `Option`; error wrapping becomes explicit
  constructors carrying the wrapped context.
-/

namespace AgentPools

/-- Go `map[string]*string` modelled as an association list from keys to
`*string` values (`none` is a nil value pointer). Go maps never hold a key
twice; theorems that need this carry a no-duplicate-keys hypothesis. -/
abbrev LabelMap := List (String × Option String)

/-- Map lookup: first binding of the key, `none` when the key is absent. -/
def lookupL : LabelMap → String → Option (Option String)
  | [], _ => none
  | (k2, v) :: rest, k => if k2 = k then some v else lookupL rest k

/-- Go map assignment `m[k] = v`: replace the binding if present, else append. -/
def insertL : LabelMap → String → Option String → LabelMap
  | [], k, v => [(k, v)]
  | (k2, v2) :: rest, k, v =>
      if k2 = k then (k, v) :: rest else (k2, v2) :: insertL rest k v

/-- Every binding of `a` is found unchanged in `b`. -/
def submapL (a b : LabelMap) : Bool :=
  a.all fun kv => lookupL b kv.1 == some kv.2

/-- Equality of two Go `map[string]*string` values as cmp.Diff computes it:
a nil map differs from any non-nil map (even an empty one); two non-nil maps
are equal when they bind the same keys to equal values. -/
def labelsEq : Option LabelMap → Option LabelMap → Bool
  | none, none => true
  | some a, some b => submapL a b && submapL b a
  | _, _ => false

/-- The fields of containerservice.ManagedClusterAgentPoolProfileProperties
read or written by spec.go. The Go `AgentPool` wraps a pointer to this
properties struct which the code always populates and dereferences, so the
wrapper is elided. The Go SDK `Type` field is spelled `PoolType` because
`Type` is reserved in Lean. Defaults are the Go zero values (nil pointers,
empty strings), which is what the struct literals in spec.go leave unset. -/
structure ManagedClusterAgentPoolProfileProperties where
  AvailabilityZones : Option (List String) := none
  Count : Option Int := none
  EnableAutoScaling : Option Bool := none
  EnableUltraSSD : Option Bool := none
  MaxCount : Option Int := none
  MaxPods : Option Int := none
  MinCount : Option Int := none
  Mode : String := ""
  NodeLabels : Option LabelMap := none
  NodeTaints : Option (List String) := none
  OrchestratorVersion : Option String := none
  OsDiskSizeGB : Option Int := none
  OsDiskType : String := ""
  OsType : String := ""
  ProvisioningState : Option String := none
  ScaleSetPriority : String := ""
  PoolType : String := ""
  VMSize : Option String := none
  VnetSubnetID : Option String := none
  EnableNodePublicIP : Option Bool := none
  NodePublicIPPrefixID : Option String := none
deriving DecidableEq

/-- containerservice.AgentPool, with the always-dereferenced properties
pointer elided (see above). -/
abbrev AgentPool := ManagedClusterAgentPoolProfileProperties

/-- AgentPoolSpec from agentpools/spec.go. -/
structure AgentPoolSpec where
  Name : String := ""
  ResourceGroup : String := ""
  Cluster : String := ""
  Version : Option String := none
  SKU : String := ""
  Replicas : Int := 0
  OSDiskSizeGB : Int := 0
  VnetSubnetID : String := ""
  Mode : String := ""
  MaxCount : Option Int := none
  MinCount : Option Int := none
  NodeLabels : Option LabelMap := none
  NodeTaints : List String := []
  EnableAutoScaling : Option Bool := none
  AvailabilityZones : List String := []
  MaxPods : Option Int := none
  OsDiskType : Option String := none
  EnableUltraSSD : Option Bool := none
  OSType : Option String := none
  Headers : List (String × String) := []
  EnableNodePublicIP : Option Bool := none
  NodePublicIPPrefixID : Option String := none
  ScaleSetPriority : Option String := none
deriving DecidableEq

/-- Go autorest helper to.Bool: nil pointer reads as false. -/
def derefBool (b : Option Bool) : Bool := b.getD false

/-- Go autorest helper to.String: nil pointer reads as the empty string. -/
def derefString (s : Option String) : String := s.getD ""

/-- Error outcomes of Parameters. `transient` is azure.WithTransientError,
which attaches a suggested retry-after duration (held here in seconds) to the
wrapped message; `nilStateDeref` models the Go runtime panic that a nil
ProvisioningState pointer dereference would raise. -/
inductive ParamsError where
  | notAnAgentPool (typeName : String)
  | nilStateDeref
  | transient (msg : String) (retryAfterSeconds : Nat)
deriving DecidableEq

/-- The untyped `existing interface{}` argument of Parameters: Go nil, a
containerservice.AgentPool, or a value of any other type (the failed type
assertion records the dynamic type name). -/
inductive ExistingArg where
  | nil
  | pool (p : AgentPool)
  | other (typeName : String)
deriving DecidableEq

deriving instance DecidableEq for Except

/-- Outcome of one call to Parameters. `result` is the Go
`(params interface{}, err error)` pair (never both non-nil in this function,
hence an Except of an Option). `nodeLabelsAfter` records the contents of the
map object referenced by `s.NodeLabels` when the call returns: Go maps are
reference values and mergeSystemNodeLabels writes through the alias
`ret := capz`, so the caller-visible spec map can change. -/
structure ParamsResult where
  result : Except ParamsError (Option AgentPool)
  nodeLabelsAfter : Option LabelMap
deriving DecidableEq

/-- Message built at spec.go:136 for a non-terminal provisioning state. -/
def nonTerminalStateMsg (ps : String) : String :=
  "Unable to update existing agent pool in non terminal state. Agent pool must be in one of the following provisioning states: Canceled, Failed, or Succeeded. Actual state: " ++ ps

/-- The first character list leads the second one. -/
def charsLead : List Char → List Char → Bool
  | [], _ => true
  | _ :: _, [] => false
  | c :: cs, d :: ds => c == d && charsLead cs ds

/-- Modelled from the spec: util/azure.IsAzureSystemNodeLabelKey is not in
the provided sources; per the spec a label key is remote-owned when it
matches the reserved system name, the vendor domain kubernetes.azure.com
(a strings.HasPrefix test, spelled out over characters here). -/
def isAzureSystemNodeLabelKey (labelKey : String) : Bool :=
  charsLead ("kubernetes.azure.com".data) labelKey.data

/-- mergeSystemNodeLabels from spec.go:237. `ret := capz` aliases the capz
map and the loop assigns the kubernetes.azure.com-prefixed bindings of `aks`
into it; the fold is one deterministic interleaving of Go's unordered map
iteration (insertion of distinct keys commutes, and Go maps hold each key
once). -/
def mergeSystemNodeLabels (capz aks : LabelMap) : LabelMap :=
  aks.foldl
    (fun ret kv =>
      if isAzureSystemNodeLabelKey kv.1 then insertL ret kv.1 kv.2 else ret)
    capz

/-- The `existingProfile` normalized comparison projection built at
spec.go:141: the eight diff-relevant fields of the existing pool, every
other field left at its zero value. -/
def existingComparisonOf (existingPool : AgentPool) : AgentPool :=
  { Count := existingPool.Count
    OrchestratorVersion := existingPool.OrchestratorVersion
    Mode := existingPool.Mode
    EnableAutoScaling := existingPool.EnableAutoScaling
    MinCount := existingPool.MinCount
    MaxCount := existingPool.MaxCount
    NodeLabels := existingPool.NodeLabels
    NodeTaints := existingPool.NodeTaints }

/-- The `normalizedProfile` projection of the desired spec built at
spec.go:154, including the autoscaling carve-out of spec.go:170: NodeTaints
is taken from the existing pool, not from the spec, and when autoscaling is
enabled the desired count is overwritten with the existing count. -/
def normalizedComparisonOf (s : AgentPoolSpec) (existingPool : AgentPool) : AgentPool :=
  let normalizedProfile : AgentPool :=
    { Count := some s.Replicas
      OrchestratorVersion := s.Version
      Mode := s.Mode
      EnableAutoScaling := s.EnableAutoScaling
      MinCount := s.MinCount
      MaxCount := s.MaxCount
      NodeLabels := s.NodeLabels
      NodeTaints := existingPool.NodeTaints }
  if derefBool s.EnableAutoScaling then
    { normalizedProfile with Count := (existingComparisonOf existingPool).Count }
  else
    normalizedProfile

/-- Structural equality of two projections as cmp.Diff reports it
(`diff == ""`): field-by-field, label maps compared as key/value sets. -/
def profEq (a b : AgentPool) : Bool :=
  a.AvailabilityZones == b.AvailabilityZones &&
  a.Count == b.Count &&
  a.EnableAutoScaling == b.EnableAutoScaling &&
  a.EnableUltraSSD == b.EnableUltraSSD &&
  a.MaxCount == b.MaxCount &&
  a.MaxPods == b.MaxPods &&
  a.MinCount == b.MinCount &&
  a.Mode == b.Mode &&
  labelsEq a.NodeLabels b.NodeLabels &&
  a.NodeTaints == b.NodeTaints &&
  a.OrchestratorVersion == b.OrchestratorVersion &&
  a.OsDiskSizeGB == b.OsDiskSizeGB &&
  a.OsDiskType == b.OsDiskType &&
  a.OsType == b.OsType &&
  a.ProvisioningState == b.ProvisioningState &&
  a.ScaleSetPriority == b.ScaleSetPriority &&
  a.PoolType == b.PoolType &&
  a.VMSize == b.VMSize &&
  a.VnetSubnetID == b.VnetSubnetID &&
  a.EnableNodePublicIP == b.EnableNodePublicIP &&
  a.NodePublicIPPrefixID == b.NodePublicIPPrefixID

/-- The containerservice.AgentPool returned at spec.go:209, built from the
spec fields and the (possibly merged) `nodeLabels` local. -/
def payloadOf (s : AgentPoolSpec) (nodeLabels : Option LabelMap) : AgentPool :=
  { AvailabilityZones :=
      if s.AvailabilityZones.length > 0 then some s.AvailabilityZones else none
    Count := if s.Replicas > 0 then some s.Replicas else none
    EnableAutoScaling := s.EnableAutoScaling
    EnableUltraSSD := s.EnableUltraSSD
    MaxCount := s.MaxCount
    MaxPods := s.MaxPods
    MinCount := s.MinCount
    Mode := s.Mode
    NodeLabels := nodeLabels
    NodeTaints := if s.NodeTaints.length > 0 then some s.NodeTaints else none
    OrchestratorVersion := s.Version
    OsDiskSizeGB := some s.OSDiskSizeGB
    OsDiskType := derefString s.OsDiskType
    OsType := derefString s.OSType
    ScaleSetPriority := derefString s.ScaleSetPriority
    PoolType := "VirtualMachineScaleSets"
    VMSize := if s.SKU = "" then none else some s.SKU
    VnetSubnetID := if s.VnetSubnetID = "" then none else some s.VnetSubnetID
    EnableNodePublicIP := s.EnableNodePublicIP
    NodePublicIPPrefixID := s.NodePublicIPPrefixID }

/-- Parameters from spec.go:125. The terminal-state constants Canceled,
Failed and Succeeded come from the api/v1beta1 ProvisioningState string
type named by the spec. The returned `nodeLabelsAfter` component tracks the
contents of the map `s.NodeLabels` refers to after the call (see
ParamsResult). -/
def Parameters (s : AgentPoolSpec) (existing : ExistingArg) : ParamsResult :=
  match existing with
  | .other typeName =>
      { result := .error (.notAnAgentPool typeName), nodeLabelsAfter := s.NodeLabels }
  | .nil =>
      { result := .ok (some (payloadOf s s.NodeLabels)), nodeLabelsAfter := s.NodeLabels }
  | .pool existingPool =>
      match existingPool.ProvisioningState with
      | none => { result := .error .nilStateDeref, nodeLabelsAfter := s.NodeLabels }
      | some ps =>
          if ps ≠ "Canceled" ∧ ps ≠ "Failed" ∧ ps ≠ "Succeeded" then
            { result := .error (.transient (nonTerminalStateMsg ps) 20)
              nodeLabelsAfter := s.NodeLabels }
          else
            let existingProfile := existingComparisonOf existingPool
            let normalizedProfile := normalizedComparisonOf s existingPool
            if profEq normalizedProfile existingProfile then
              { result := .ok none, nodeLabelsAfter := s.NodeLabels }
            else
              match normalizedProfile.NodeLabels with
              | some capzLabels =>
                  let merged :=
                    mergeSystemNodeLabels capzLabels (existingPool.NodeLabels.getD [])
                  { result := .ok (some (payloadOf s (some merged)))
                    nodeLabelsAfter := some merged }
              | none =>
                  { result := .ok (some (payloadOf s s.NodeLabels))
                    nodeLabelsAfter := s.NodeLabels }

/-- Modelled from the spec: the generic reconcile service that drives
Parameters is not in the provided sources; per the spec it submits a
create-or-update call exactly when Parameters yields a non-nil payload, and
terminates the attempt with a no-op (or surfaces the error) otherwise. -/
def reconcileIssuesSubmit (s : AgentPoolSpec) (existing : ExistingArg) : Bool :=
  match (Parameters s existing).result with
  | .ok (some _) => true
  | _ => false

/-- The call reported no needed change: `(nil, nil)`. -/
def isNoOpResult (r : ParamsResult) : Bool :=
  match r.result with
  | .ok none => true
  | _ => false

/-- The call returned an update/create payload. -/
def isUpdateResult (r : ParamsResult) : Bool :=
  match r.result with
  | .ok (some _) => true
  | _ => false

/-- The payload returned by the call binds label `k` to value `v`. -/
def resultPayloadHasLabel (r : ParamsResult) (k : String) (v : Option String) : Bool :=
  match r.result with
  | .ok (some p) =>
      match p.NodeLabels with
      | some m => lookupL m k == some v
      | none => false
  | _ => false

/-- When the existing pool is terminal and the two comparison projections
agree, Parameters is a no-op and leaves the spec labels untouched. -/
theorem parameters_noop_of_profEq (s : AgentPoolSpec) (e : AgentPool) (ps : String)
    (hps : e.ProvisioningState = some ps)
    (hterm : ps = "Canceled" ∨ ps = "Failed" ∨ ps = "Succeeded")
    (heq : profEq (normalizedComparisonOf s e) (existingComparisonOf e) = true) :
    Parameters s (.pool e) = { result := .ok none, nodeLabelsAfter := s.NodeLabels } := by
  rcases hterm with h | h | h <;> subst h <;> simp [Parameters, hps, heq]

/-- C1: for every agent pool spec and every existing pool whose provisioning
state is none of Succeeded, Failed or Canceled, Parameters returns no
payload and a transient error carrying a suggested retry delay of 20
seconds. -/
theorem terminal_state_gate_returns_transient (s : AgentPoolSpec) (e : AgentPool)
    (ps : String) (hps : e.ProvisioningState = some ps)
    (hc : ps ≠ "Canceled") (hf : ps ≠ "Failed") (hs : ps ≠ "Succeeded") :
    (Parameters s (.pool e)).result =
      .error (.transient (nonTerminalStateMsg ps) 20) := by
  simp [Parameters, hps, hc, hf, hs]

/-- Existing pool caught mid-mutation, used as the gate witness. -/
def poolDeleting : AgentPool := { ProvisioningState := some "Deleting" }

/-- Witness for C1 at the provisioning state Deleting. -/
theorem terminal_state_gate_returns_transient_witness :
    poolDeleting.ProvisioningState = some "Deleting" ∧
    (Parameters { Name := "pool0" } (.pool poolDeleting)).result =
      .error (.transient (nonTerminalStateMsg "Deleting") 20) :=
  ⟨rfl, terminal_state_gate_returns_transient { Name := "pool0" } poolDeleting
    "Deleting" rfl (by decide) (by decide) (by decide)⟩

/-- C2: for every agent pool spec and terminal existing pool whose
normalized comparison projection coincides with the normalized projection of
the desired fields, Parameters returns (nil, nil), so a second Reconcile
with unchanged Spec and unchanged remote state issues no submit call. -/
theorem parameters_noop_when_projections_equal (s : AgentPoolSpec) (e : AgentPool)
    (ps : String) (hps : e.ProvisioningState = some ps)
    (hterm : ps = "Canceled" ∨ ps = "Failed" ∨ ps = "Succeeded")
    (heq : profEq (normalizedComparisonOf s e) (existingComparisonOf e) = true) :
    (Parameters s (.pool e)).result = .ok none ∧
    reconcileIssuesSubmit s (.pool e) = false := by
  have h := parameters_noop_of_profEq s e ps hps hterm heq
  refine ⟨by rw [h], ?_⟩
  simp [reconcileIssuesSubmit, h]

/-- Converged desired state used in the idempotence witness. -/
def specConverged : AgentPoolSpec := {}

/-- Existing pool matching specConverged, in a terminal state. -/
def poolConverged : AgentPool :=
  { Count := some 0, ProvisioningState := some "Succeeded" }

/-- Witness for C2 on a converged spec/pool pair. -/
theorem parameters_noop_when_projections_equal_witness :
    poolConverged.ProvisioningState = some "Succeeded" ∧
    profEq (normalizedComparisonOf specConverged poolConverged)
      (existingComparisonOf poolConverged) = true ∧
    ((Parameters specConverged (.pool poolConverged)).result = .ok none ∧
      reconcileIssuesSubmit specConverged (.pool poolConverged) = false) :=
  ⟨rfl, by decide,
    parameters_noop_when_projections_equal specConverged poolConverged "Succeeded"
      rfl (Or.inr (Or.inr rfl)) (by decide)⟩

/-- C3: with autoscaling enabled, a replica-count mismatch alone (all other
projected fields equal) never triggers an update: Parameters returns
(nil, nil). -/
theorem autoscaling_count_mismatch_is_noop (s : AgentPoolSpec) (e : AgentPool)
    (ps : String) (hps : e.ProvisioningState = some ps)
    (hterm : ps = "Canceled" ∨ ps = "Failed" ∨ ps = "Succeeded")
    (hauto : derefBool s.EnableAutoScaling = true)
    (hcount : some s.Replicas ≠ e.Count)
    (hver : s.Version = e.OrchestratorVersion)
    (hmode : s.Mode = e.Mode)
    (heas : s.EnableAutoScaling = e.EnableAutoScaling)
    (hmin : s.MinCount = e.MinCount)
    (hmax : s.MaxCount = e.MaxCount)
    (hlab : labelsEq s.NodeLabels e.NodeLabels = true) :
    (Parameters s (.pool e)).result = .ok none := by
  have hauto2 : derefBool e.EnableAutoScaling = true := heas ▸ hauto
  have heq : profEq (normalizedComparisonOf s e) (existingComparisonOf e) = true := by
    simp [normalizedComparisonOf, existingComparisonOf, profEq, hauto, hauto2,
      hver, hmode, heas, hmin, hmax, hlab]
  rw [parameters_noop_of_profEq s e ps hps hterm heq]

/-- Autoscaled desired state asking for 5 replicas. -/
def specAutoscaled : AgentPoolSpec :=
  { Replicas := 5, EnableAutoScaling := some true
    MinCount := some 1, MaxCount := some 9 }

/-- Existing autoscaled pool currently at 3 replicas, otherwise matching. -/
def poolAutoscaled : AgentPool :=
  { Count := some 3, EnableAutoScaling := some true
    MinCount := some 1, MaxCount := some 9
    ProvisioningState := some "Succeeded" }

/-- Witness for C3: desired 5 vs existing 3 replicas is still a no-op. -/
theorem autoscaling_count_mismatch_is_noop_witness :
    poolAutoscaled.ProvisioningState = some "Succeeded" ∧
    derefBool specAutoscaled.EnableAutoScaling = true ∧
    some specAutoscaled.Replicas ≠ poolAutoscaled.Count ∧
    (Parameters specAutoscaled (.pool poolAutoscaled)).result = .ok none :=
  ⟨rfl, by decide, by decide,
    autoscaling_count_mismatch_is_noop specAutoscaled poolAutoscaled "Succeeded"
      rfl (Or.inr (Or.inr rfl)) (by decide) (by decide) rfl rfl rfl rfl rfl (by decide)⟩

/-- C10: node taints are read from the existing pool in both comparison
projections, so two specs differing only in NodeTaints always yield the
same no-op-versus-update decision against the same existing object. -/
theorem node_taints_do_not_affect_update_decision (s : AgentPoolSpec)
    (ts : List String) (e : AgentPool) :
    isNoOpResult (Parameters { s with NodeTaints := ts } (.pool e)) =
      isNoOpResult (Parameters s (.pool e)) ∧
    isUpdateResult (Parameters { s with NodeTaints := ts } (.pool e)) =
      isUpdateResult (Parameters s (.pool e)) := by
  have hnorm : normalizedComparisonOf { s with NodeTaints := ts } e =
      normalizedComparisonOf s e := rfl
  cases hps : e.ProvisioningState with
  | none => simp [Parameters, hps, isNoOpResult, isUpdateResult]
  | some ps =>
    by_cases hgate : ps ≠ "Canceled" ∧ ps ≠ "Failed" ∧ ps ≠ "Succeeded"
    · simp [Parameters, hps, hgate, isNoOpResult, isUpdateResult]
    · by_cases hdiff :
        profEq (normalizedComparisonOf s e) (existingComparisonOf e) = true
      · simp [Parameters, hps, hgate, hnorm, hdiff, isNoOpResult, isUpdateResult]
      · cases hnl : (normalizedComparisonOf s e).NodeLabels <;>
          simp [Parameters, hps, hgate, hnorm, hdiff, hnl,
            isNoOpResult, isUpdateResult]

theorem lookupL_insertL_self (m : LabelMap) (k : String) (v : Option String) :
    lookupL (insertL m k v) k = some v := by
  induction m with
  | nil => simp [insertL, lookupL]
  | cons kv rest ih =>
    obtain ⟨k2, v2⟩ := kv
    by_cases h : k2 = k
    · subst h; simp [insertL, lookupL]
    · simp [insertL, lookupL, h, ih]

theorem lookupL_insertL_ne (m : LabelMap) (k k2 : String) (v : Option String)
    (h : k2 ≠ k) : lookupL (insertL m k2 v) k = lookupL m k := by
  induction m with
  | nil => simp [insertL, lookupL, h]
  | cons kv rest ih =>
    obtain ⟨k3, v3⟩ := kv
    by_cases h3 : k3 = k2
    · subst h3; simp [insertL, lookupL, h]
    · simp [insertL, lookupL, h3, ih]

/-- One step of the merge fold. -/
theorem mergeSystemNodeLabels_cons (m : LabelMap) (k : String) (v : Option String)
    (rest : LabelMap) :
    mergeSystemNodeLabels m ((k, v) :: rest) =
      mergeSystemNodeLabels
        (if isAzureSystemNodeLabelKey k then insertL m k v else m) rest := rfl

/-- Keys not bound by the aks side pass through the system-label merge. -/
theorem lookupL_merge_not_mem (aks m : LabelMap) (k : String)
    (h : k ∉ aks.map Prod.fst) :
    lookupL (mergeSystemNodeLabels m aks) k = lookupL m k := by
  induction aks generalizing m with
  | nil => rfl
  | cons kv rest ih =>
    obtain ⟨k2, v2⟩ := kv
    simp only [List.map_cons, List.mem_cons, not_or] at h
    obtain ⟨hne, hrest⟩ := h
    rw [mergeSystemNodeLabels_cons]
    by_cases hsys : isAzureSystemNodeLabelKey k2
    · rw [if_pos hsys, ih _ hrest, lookupL_insertL_ne _ _ _ _ (Ne.symm hne)]
    · rw [if_neg hsys, ih _ hrest]

/-- A system-prefixed binding of the aks side survives the merge verbatim. -/
theorem lookupL_merge_mem (aks m : LabelMap) (k : String) (v : Option String)
    (hnodup : (aks.map Prod.fst).Nodup)
    (hmem : (k, v) ∈ aks)
    (hsys : isAzureSystemNodeLabelKey k = true) :
    lookupL (mergeSystemNodeLabels m aks) k = some v := by
  induction aks generalizing m with
  | nil => cases hmem
  | cons kv rest ih =>
    obtain ⟨k2, v2⟩ := kv
    rw [List.map_cons, List.nodup_cons] at hnodup
    obtain ⟨hk2, hrest⟩ := hnodup
    rcases List.mem_cons.mp hmem with heq | hm
    · injection heq with hk hv
      subst hk; subst hv
      rw [mergeSystemNodeLabels_cons, if_pos hsys,
        lookupL_merge_not_mem rest _ k hk2, lookupL_insertL_self]
    · rw [mergeSystemNodeLabels_cons]
      by_cases hsys2 : isAzureSystemNodeLabelKey k2
      · rw [if_pos hsys2]; exact ih _ hrest hm
      · rw [if_neg hsys2]; exact ih _ hrest hm

theorem normalizedComparisonOf_NodeLabels (s : AgentPoolSpec) (e : AgentPool) :
    (normalizedComparisonOf s e).NodeLabels = s.NodeLabels := by
  unfold normalizedComparisonOf
  by_cases h : derefBool s.EnableAutoScaling <;> simp [h]

/-- Desired state declaring no node labels but a newer version. -/
def specNoLabels : AgentPoolSpec := { Version := some "1.25.0" }

/-- Existing terminal pool on an older version carrying a remote-owned
kubernetes.azure.com-prefixed node label. -/
def poolWithSystemLabel : AgentPool :=
  { OrchestratorVersion := some "1.24.9"
    NodeLabels := some [("kubernetes.azure.com/cluster", some "capz")]
    ProvisioningState := some "Succeeded" }

set_option maxRecDepth 8000 in
set_option maxHeartbeats 1000000 in
/-- Counterexample to C4 as stated: with a nil desired NodeLabels map the
just-in-time merge is skipped, so the returned update payload does not
retain the reserved-system-prefixed label of the existing pool. -/
theorem system_label_dropped_when_spec_labels_nil :
    isUpdateResult (Parameters specNoLabels (.pool poolWithSystemLabel)) = true ∧
    resultPayloadHasLabel (Parameters specNoLabels (.pool poolWithSystemLabel))
      "kubernetes.azure.com/cluster" (some "capz") = false := by
  constructor <;> decide

/-- C4 (amended): when an update is required and the desired NodeLabels map
is non-nil, every reserved-system-prefixed label of the existing pool is
retained unchanged in the node-label set of the returned payload. -/
theorem update_payload_preserves_system_labels (s : AgentPoolSpec) (e : AgentPool)
    (ps : String) (m aks : LabelMap) (k : String) (v : Option String)
    (hps : e.ProvisioningState = some ps)
    (hterm : ps = "Canceled" ∨ ps = "Failed" ∨ ps = "Succeeded")
    (hm : s.NodeLabels = some m)
    (haks : e.NodeLabels = some aks)
    (hnodup : (aks.map Prod.fst).Nodup)
    (hmem : (k, v) ∈ aks)
    (hsys : isAzureSystemNodeLabelKey k = true)
    (habsent : lookupL m k = none)
    (hdiff : profEq (normalizedComparisonOf s e) (existingComparisonOf e) = false) :
    resultPayloadHasLabel (Parameters s (.pool e)) k v = true := by
  have hns : (normalizedComparisonOf s e).NodeLabels = some m := by
    rw [normalizedComparisonOf_NodeLabels, hm]
  have hlook : lookupL (mergeSystemNodeLabels m aks) k = some v :=
    lookupL_merge_mem aks m k v hnodup hmem hsys
  rcases hterm with h | h | h <;> subst h <;>
    simp [Parameters, hps, hdiff, hns, haks, resultPayloadHasLabel, payloadOf, hlook]

/-- Desired state with one ordinary label and a newer version. -/
def specUserLabel : AgentPoolSpec :=
  { Version := some "1.25.0", NodeLabels := some [("env", some "dev")] }

set_option maxRecDepth 8000 in
set_option maxHeartbeats 1000000 in
/-- Witness for the amended C4 on concrete label maps. -/
theorem update_payload_preserves_system_labels_witness :
    specUserLabel.NodeLabels = some [("env", some "dev")] ∧
    poolWithSystemLabel.NodeLabels =
      some [("kubernetes.azure.com/cluster", some "capz")] ∧
    resultPayloadHasLabel (Parameters specUserLabel (.pool poolWithSystemLabel))
      "kubernetes.azure.com/cluster" (some "capz") = true :=
  ⟨rfl, rfl,
    update_payload_preserves_system_labels specUserLabel poolWithSystemLabel
      "Succeeded" [("env", some "dev")] [("kubernetes.azure.com/cluster", some "capz")]
      "kubernetes.azure.com/cluster" (some "capz")
      rfl (Or.inr (Or.inr rfl)) rfl rfl (by decide) (by decide) (by decide)
      (by decide) (by decide)⟩

set_option maxRecDepth 8000 in
set_option maxHeartbeats 1000000 in
/-- C7 evidence: at this input the just-in-time merge writes the remote
system label through the alias into the map held by the caller's spec, so
the spec's NodeLabels differ after the call — the code mutates the Spec. -/
theorem parameters_mutates_spec_node_labels :
    (Parameters specUserLabel (.pool poolWithSystemLabel)).nodeLabelsAfter ≠
      specUserLabel.NodeLabels := by decide

end AgentPools

namespace VirtualMachines

/-- infrav1.Image: the abstract image descriptor with its three addressing
modes (explicit ID, shared image gallery coordinates, marketplace fields). -/
structure Image where
  ID : Option String := none
  SubscriptionID : Option String := none
  ResourceGroup : Option String := none
  Gallery : Option String := none
  Name : Option String := none
  Version : Option String := none
  Publisher : Option String := none
  Offer : Option String := none
  SKU : Option String := none
deriving DecidableEq

/-- compute.ImageReference. -/
structure ImageReference where
  ID : Option String := none
  Publisher : Option String := none
  Offer : Option String := none
  Sku : Option String := none
  Version : Option String := none
deriving DecidableEq

/-- generateSIGImageID: requires all five shared-gallery coordinates, failing
with a field-specific message on the first nil one, and otherwise renders the
five-segment resource path. -/
def generateSIGImageID (image : Image) : Except String String :=
  match image.SubscriptionID with
  | none => .error ("Image subscription ID cannot be nil when specifying an image from an Azure Shared Image Gallery")
  | some sub =>
    match image.ResourceGroup with
    | none => .error ("Image resource group cannot be nil when specifying an image from an Azure Shared Image Gallery")
    | some rg =>
      match image.Gallery with
      | none => .error ("Image gallery cannot be nil when specifying an image from an Azure Shared Image Gallery")
      | some gallery =>
        match image.Name with
        | none => .error ("Image name cannot be nil when specifying an image from an Azure Shared Image Gallery")
        | some name =>
          match image.Version with
          | none => .error ("Image version cannot be nil when specifying an image from an Azure Shared Image Gallery")
          | some version =>
              .ok ("/subscriptions/" ++ sub ++ "/resourceGroups/" ++ rg ++
                   "/providers/Microsoft.Compute/galleries/" ++ gallery ++
                   "/images/" ++ name ++ "/versions/" ++ version)

/-- generateImagePlan: the marketplace reference from Publisher, Offer, SKU
and Version, failing fatally with a message naming the first missing field. -/
def generateImagePlan (image : Image) : Except String ImageReference :=
  match image.Publisher with
  | none => .error ("Image reference cannot be generated, as Publisher field is missing")
  | some pub =>
    match image.Offer with
    | none => .error ("Image reference cannot be generated, as Offer field is missing")
    | some offer =>
      match image.SKU with
      | none => .error ("Image reference cannot be generated, as SKU field is missing")
      | some sku =>
        match image.Version with
        | none => .error ("Image reference cannot be generated, as Version field is missing")
        | some version =>
            .ok { Publisher := some pub, Offer := some offer
                  Sku := some sku, Version := some version }

/-- generateImageReference: explicit ID verbatim first; else the shared
image gallery path when generateSIGImageID succeeds; else (swallowing the
gallery error) the marketplace reference. -/
def generateImageReference (image : Image) : Except String ImageReference :=
  match image.ID with
  | some _ => .ok { ID := image.ID }
  | none =>
    match generateSIGImageID image with
    | .ok imageID => .ok { ID := some imageID }
    | .error _ => generateImagePlan image

/-- infrav1.ManagedDisk. -/
structure ManagedDisk where
  StorageAccountType : String := ""
deriving DecidableEq

/-- infrav1.OSDisk. -/
structure OSDisk where
  OSType : String := ""
  DiskSizeGB : Int := 0
  ManagedDisk : ManagedDisk := {}
deriving DecidableEq

/-- Spec from the virtualmachines service: the input specification for
Get / CreateOrUpdate / Delete calls. -/
structure Spec where
  Name : String := ""
  NICName : String := ""
  SSHKeyData : String := ""
  Size : String := ""
  Zone : String := ""
  Image : Image := {}
  OSDisk : OSDisk := {}
  CustomData : String := ""
deriving DecidableEq

/-- The untyped `spec interface{}` argument: a *Spec, or a value of any
other type (which every operation rejects as an invalid specification). -/
inductive SpecArg where
  | vm (s : Spec)
  | invalid (typeName : String)
deriving DecidableEq

/-- An error coming back from the Azure SDK client, together with its
classification by the external predicate azure.ResourceNotFound. -/
structure AzureError where
  message : String := ""
  notFound : Bool := false
deriving DecidableEq

/-- compute.ManagedDiskParameters. -/
structure ManagedDiskParameters where
  StorageAccountType : String := ""
deriving DecidableEq

/-- compute.OSDisk as built by generateStorageProfile. -/
structure ComputeOSDisk where
  Name : Option String := none
  OsType : String := ""
  CreateOption : String := ""
  DiskSizeGB : Option Int := none
  ManagedDisk : ManagedDiskParameters := {}
deriving DecidableEq

/-- compute.StorageProfile. -/
structure StorageProfile where
  OsDisk : ComputeOSDisk := {}
  ImageReference : Option ImageReference := none
deriving DecidableEq

/-- Modelled from the spec: azure.GenerateOSDiskName, the disk-name
generator named by the spec as a global deterministic constant, derives the
OS disk name from the VM name. -/
def GenerateOSDiskName (vmName : String) : String :=
  vmName ++ "_OSDisk"

/-- generateStorageProfile: the OS disk block from the spec fields plus the
resolved image reference; an image-resolution error aborts the construction. -/
def generateStorageProfile (vmSpec : Spec) : Except String StorageProfile :=
  let storageProfile : StorageProfile :=
    { OsDisk :=
        { Name := some (GenerateOSDiskName vmSpec.Name)
          OsType := vmSpec.OSDisk.OSType
          CreateOption := "FromImage"
          DiskSizeGB := some vmSpec.OSDisk.DiskSizeGB
          ManagedDisk :=
            { StorageAccountType := vmSpec.OSDisk.ManagedDisk.StorageAccountType } } }
  match generateImageReference vmSpec.Image with
  | .error e => .error e
  | .ok imageRef => .ok { storageProfile with ImageReference := some imageRef }

/-- Modelled from the spec: azure.DefaultUserName, the default-username
configuration constant named by the spec; its concrete value is irrelevant
to the claims. -/
def DefaultUserName : String := "capi"

/-- compute.SSHPublicKey. -/
structure SSHPublicKey where
  Path : Option String := none
  KeyData : Option String := none
deriving DecidableEq

/-- compute.OSProfile; the LinuxConfiguration.SSH.PublicKeys nesting is
flattened to the key list. -/
structure OSProfile where
  ComputerName : Option String := none
  AdminUsername : Option String := none
  AdminPassword : Option String := none
  CustomData : Option String := none
  SSHPublicKeys : List SSHPublicKey := []
deriving DecidableEq

/-- compute.NetworkInterfaceReference with its properties flattened. -/
structure NetworkInterfaceReference where
  ID : Option String := none
  Primary : Option Bool := none
deriving DecidableEq

/-- compute.VirtualMachine as built by Reconcile; HardwareProfile is
flattened to VMSize and NetworkProfile to the interface list. -/
structure VirtualMachine where
  Location : Option String := none
  Tags : List (String × String) := []
  VMSize : String := ""
  StorageProfile : StorageProfile := {}
  OsProfile : OSProfile := {}
  NetworkInterfaces : List NetworkInterfaceReference := []
  Zones : Option (List String) := none
deriving DecidableEq

/-- The payload-construction step of Reconcile (part_000:73-163), with every
external input explicit: `location` and `tags` come from the scope
collaborators, `nicID` from the network-interface dependency lookup, and the
two randomness draws are passed in — `generatedSSHKey` is the marshalled
public key of the freshly generated RSA key (consulted only when
SSHKeyData is empty) and `randomPassword` is the GenerateRandomString 32
draw (the success case; a randomness-source failure aborts Reconcile
earlier). -/
def buildVirtualMachine (location : String) (tags : List (String × String))
    (vmSpec : Spec) (nicID : Option String)
    (generatedSSHKey : String) (randomPassword : String) :
    Except String VirtualMachine :=
  match generateStorageProfile vmSpec with
  | .error e => .error e
  | .ok storageProfile =>
    let sshKeyData :=
      if vmSpec.SSHKeyData = "" then generatedSSHKey else vmSpec.SSHKeyData
    let virtualMachine : VirtualMachine :=
      { Location := some location
        Tags := tags
        VMSize := vmSpec.Size
        StorageProfile := storageProfile
        OsProfile :=
          { ComputerName := some vmSpec.Name
            AdminUsername := some DefaultUserName
            AdminPassword := some randomPassword
            CustomData := some vmSpec.CustomData
            SSHPublicKeys :=
              [{ Path := some ("/home/" ++ DefaultUserName ++ "/.ssh/authorized_keys")
                 KeyData := some sshKeyData }] }
        NetworkInterfaces := [{ ID := nicID, Primary := some true }]
        Zones := none }
    if vmSpec.Zone = "" then .ok virtualMachine
    else .ok { virtualMachine with Zones := some [vmSpec.Zone] }

/-- Replace the freshly drawn AdminPassword credential with `none`,
leaving every other payload field intact. -/
def scrubAdminPassword (r : Except String VirtualMachine) : Except String VirtualMachine :=
  match r with
  | .ok vm => .ok { vm with OsProfile := { vm.OsProfile with AdminPassword := none } }
  | .error e => .error e

/-- Stand-in for the opaque compute.VirtualMachine value returned by the SDK
client's Get; its contents are irrelevant to the claims. -/
structure SDKVirtualMachine where
  payload : String := ""
deriving DecidableEq

/-- Stand-in for the infrav1.VM representation produced by the external
converters.SDKToVM collaborator. -/
structure InfraVM where
  payload : String := ""
deriving DecidableEq

/-- Error outcomes of Get, mirroring how the Go code shapes each returned
error: a failed type assertion; the NotFound wrap
errors.Wrapf(err, "vm %s not found", name); a raw non-NotFound client error
returned as-is; a converter error. -/
inductive GetError where
  | invalidSpec
  | vmNotFound (name : String) (cause : AzureError)
  | fetchFailed (cause : AzureError)
  | convertFailed (cause : String)
deriving DecidableEq

/-- The `interface{}` value component returned by Get alongside the error:
Go nil, the zero/raw SDK object, or the converted representation. -/
inductive GetValue where
  | nil
  | sdk (v : SDKVirtualMachine)
  | converted (v : InfraVM)
deriving DecidableEq

/-- Get from the virtualmachines service (part_000:51-64). The client fetch
is an explicit input, as the Go pair it returns: a value (zero on failure)
and an optional error; `convert` is the external converters.SDKToVM
collaborator. -/
def Get (spec : SpecArg) (fetchVM : SDKVirtualMachine) (fetchErr : Option AzureError)
    (convert : SDKVirtualMachine → Except String InfraVM) :
    GetValue × Option GetError :=
  match spec with
  | .invalid _ => (.sdk {}, some .invalidSpec)
  | .vm vmSpec =>
    match fetchErr with
    | some e =>
        if e.notFound then (.nil, some (.vmNotFound vmSpec.Name e))
        else (.sdk fetchVM, some (.fetchFailed e))
    | none =>
        match convert fetchVM with
        | .ok v => (.converted v, none)
        | .error m => (.nil, some (.convertFailed m))

/-- The external outcomes one Delete attempt can observe: the client Delete
submission (an optional error), then WaitForCompletionRef, then
future.Result. -/
structure DeleteClientOutcome where
  deleteErr : Option AzureError := none
  waitErr : Option String := none
  resultErr : Option String := none
deriving DecidableEq

/-- Error outcomes of Delete, mirroring the Go wrapping: the failed type
assertion message; errors.Wrapf(err, "failed to delete vm %s in resource
group %s", name, group) around a non-NotFound submission error; the wrapped
wait error; the raw future.Result error. -/
inductive DeleteError where
  | invalidSpec
  | deleteFailed (name resourceGroup : String) (cause : AzureError)
  | waitFailed (cause : String)
  | resultFailed (cause : String)
deriving DecidableEq

/-- Delete from the virtualmachines service (part_000:189-213): a NotFound
submission error means the resource is already deleted and returns nil. -/
def Delete (resourceGroup : String) (spec : SpecArg)
    (client : DeleteClientOutcome) : Option DeleteError :=
  match spec with
  | .invalid _ => some .invalidSpec
  | .vm vmSpec =>
    match client.deleteErr with
    | some e =>
        if e.notFound then none
        else some (.deleteFailed vmSpec.Name resourceGroup e)
    | none =>
        match client.waitErr with
        | some w => some (.waitFailed w)
        | none =>
            match client.resultErr with
            | some r => some (.resultFailed r)
            | none => none

/-- A descriptor missing any of the five gallery coordinates makes
generateSIGImageID fail (with some field-specific message). -/
theorem generateSIGImageID_fails (image : Image)
    (h : image.SubscriptionID = none ∨ image.ResourceGroup = none ∨
         image.Gallery = none ∨ image.Name = none ∨ image.Version = none) :
    ∀ path, generateSIGImageID image ≠ .ok path := by
  intro path
  rcases h5 : image.SubscriptionID with _ | sub <;>
    rcases h4 : image.ResourceGroup with _ | rg <;>
    rcases h3 : image.Gallery with _ | gal <;>
    rcases h2 : image.Name with _ | nm <;>
    rcases h1 : image.Version with _ | ver <;>
    simp_all [generateSIGImageID]

/-- C5: image resolution precedence — an explicit ID wins verbatim even when
other modes are complete; complete gallery coordinates yield exactly the
five-segment path; a missing gallery coordinate falls through to the
marketplace mode without surfacing the gallery error. -/
theorem image_resolution_precedence :
    (∀ image id, image.ID = some id →
      generateImageReference image = .ok { ID := some id }) ∧
    (∀ image sub rg gal nm ver, image.ID = none →
      image.SubscriptionID = some sub → image.ResourceGroup = some rg →
      image.Gallery = some gal → image.Name = some nm → image.Version = some ver →
      generateImageReference image =
        .ok { ID := some ("/subscriptions/" ++ sub ++ "/resourceGroups/" ++ rg ++
          "/providers/Microsoft.Compute/galleries/" ++ gal ++ "/images/" ++ nm ++
          "/versions/" ++ ver) }) ∧
    (∀ image, image.ID = none →
      (image.SubscriptionID = none ∨ image.ResourceGroup = none ∨
       image.Gallery = none ∨ image.Name = none ∨ image.Version = none) →
      generateImageReference image = generateImagePlan image) := by
  refine ⟨?_, ?_, ?_⟩
  · intro image id hid
    simp [generateImageReference, hid]
  · intro image sub rg gal nm ver hid hsub hrg hgal hnm hver
    simp [generateImageReference, generateSIGImageID, hid, hsub, hrg, hgal, hnm, hver]
  · intro image hid h
    have hfail := generateSIGImageID_fails image h
    cases hsig : generateSIGImageID image with
    | ok p => exact absurd hsig (hfail p)
    | error m => simp [generateImageReference, hid, hsig]

/-- Descriptor carrying every addressing mode at once. -/
def imageWithID : Image :=
  { ID := some "explicit-id", SubscriptionID := some "sub"
    ResourceGroup := some "rg", Gallery := some "gal"
    Name := some "img", Version := some "1.0.0"
    Publisher := some "pub", Offer := some "offer", SKU := some "sku" }

/-- Descriptor with only the five gallery coordinates. -/
def imageSIG : Image :=
  { SubscriptionID := some "sub", ResourceGroup := some "rg"
    Gallery := some "gal", Name := some "img", Version := some "1.0.0" }

/-- Descriptor with the gallery coordinate missing and marketplace fields
complete. -/
def imageNoGallery : Image :=
  { SubscriptionID := some "sub", ResourceGroup := some "rg"
    Name := some "img", Version := some "1.0.0"
    Publisher := some "pub", Offer := some "offer", SKU := some "sku" }

/-- Witness for C5 at one concrete descriptor per precedence case. -/
theorem image_resolution_precedence_witness :
    generateImageReference imageWithID = .ok { ID := some "explicit-id" } ∧
    generateImageReference imageSIG =
      .ok { ID := some ("/subscriptions/" ++ "sub" ++ "/resourceGroups/" ++ "rg" ++
        "/providers/Microsoft.Compute/galleries/" ++ "gal" ++ "/images/" ++ "img" ++
        "/versions/" ++ "1.0.0") } ∧
    generateImageReference imageNoGallery = generateImagePlan imageNoGallery :=
  ⟨image_resolution_precedence.1 imageWithID "explicit-id" rfl,
   image_resolution_precedence.2.1 imageSIG "sub" "rg" "gal" "img" "1.0.0"
     rfl rfl rfl rfl rfl rfl,
   image_resolution_precedence.2.2 imageNoGallery rfl
     (Or.inr (Or.inr (Or.inl rfl)))⟩

/-- C6: Delete on an already-absent resource (a NotFound submission error)
returns nil; every other submission error is returned wrapped with the vm
name and the resource group. -/
theorem delete_idempotent_on_absent (resourceGroup : String) (vmSpec : Spec)
    (client : DeleteClientOutcome) (e : AzureError)
    (hde : client.deleteErr = some e) :
    (e.notFound = true → Delete resourceGroup (.vm vmSpec) client = none) ∧
    (e.notFound = false →
      Delete resourceGroup (.vm vmSpec) client =
        some (.deleteFailed vmSpec.Name resourceGroup e)) := by
  constructor <;> intro h <;> simp [Delete, hde, h]

/-- Spec used in the Delete witness. -/
def vmSpecDel : Spec := { Name := "vm1" }

/-- Submission outcome: the resource is already absent. -/
def clientAbsent : DeleteClientOutcome :=
  { deleteErr := some { message := "404", notFound := true } }

/-- Submission outcome: some other submission failure. -/
def clientDenied : DeleteClientOutcome :=
  { deleteErr := some { message := "403", notFound := false } }

/-- Witness for C6 on both submission outcomes. -/
theorem delete_idempotent_on_absent_witness :
    Delete "rg1" (.vm vmSpecDel) clientAbsent = none ∧
    Delete "rg1" (.vm vmSpecDel) clientDenied =
      some (.deleteFailed "vm1" "rg1" { message := "403", notFound := false }) :=
  ⟨(delete_idempotent_on_absent "rg1" vmSpecDel clientAbsent
      { message := "404", notFound := true } rfl).1 rfl,
   (delete_idempotent_on_absent "rg1" vmSpecDel clientDenied
      { message := "403", notFound := false } rfl).2 rfl⟩

/-- C9: Get returns a NotFound fetch error as the distinguishable absent
outcome — nil value plus the vmNotFound wrap naming the vm — and any other
fetch error as the distinct fetchFailed outcome carrying the raw object. -/
theorem get_not_found_is_distinguishable (vmSpec : Spec)
    (fetchVM : SDKVirtualMachine) (e : AzureError)
    (convert : SDKVirtualMachine → Except String InfraVM) :
    (e.notFound = true →
      Get (.vm vmSpec) fetchVM (some e) convert =
        (.nil, some (.vmNotFound vmSpec.Name e))) ∧
    (e.notFound = false →
      Get (.vm vmSpec) fetchVM (some e) convert =
        (.sdk fetchVM, some (.fetchFailed e))) ∧
    (∀ nm c c2, GetError.vmNotFound nm c ≠ GetError.fetchFailed c2) :=
  ⟨fun h => by simp [Get, h], fun h => by simp [Get, h],
   fun nm c c2 => by simp⟩

/-- Spec used in the Get witness. -/
def vmSpecGet : Spec := { Name := "vm2" }

/-- A fetch error classified NotFound. -/
def errNotFound : AzureError := { message := "404", notFound := true }

/-- Converter input for the Get witness (never consulted on the error path). -/
def convertUnused : SDKVirtualMachine → Except String InfraVM :=
  fun _ => .error "unused"

/-- Witness for C9 on the NotFound fetch outcome. -/
theorem get_not_found_is_distinguishable_witness :
    Get (.vm vmSpecGet) {} (some errNotFound) convertUnused =
      (.nil, some (.vmNotFound "vm2" errNotFound)) :=
  (get_not_found_is_distinguishable vmSpecGet {} errNotFound convertUnused).1 rfl

/-- VM spec with a caller-supplied SSH key, used for C8. -/
def vmSpecSSH : Spec :=
  { Name := "vm3", NICName := "nic3", SSHKeyData := "ssh-rsa AAAA"
    Size := "Standard_D2s_v3"
    Image := { ID := some "image-id" }
    OSDisk := { OSType := "Linux", DiskSizeGB := 30
                ManagedDisk := { StorageAccountType := "Premium_LRS" } } }

set_option maxRecDepth 8000 in
set_option maxHeartbeats 1000000 in
/-- Counterexample to C8 as stated: even with a non-empty SSHKeyData, the
AdminPassword credential is drawn fresh by GenerateRandomString on every
run, so two runs with identical spec inputs yield different payloads. -/
theorem payload_differs_across_password_draws :
    buildVirtualMachine "eastus" [] vmSpecSSH (some "nic-id") "generated-key" "pw-one" ≠
    buildVirtualMachine "eastus" [] vmSpecSSH (some "nic-id") "generated-key" "pw-two" := by
  decide

/-- C8 (amended): with a non-empty SSHKeyData the ssh-key randomness is not
exercised and the construction is deterministic in the spec inputs, except
for the AdminPassword credential, which is freshly drawn on every run: the
password-scrubbed payloads of any two runs coincide. -/
theorem payload_deterministic_except_password (location : String)
    (tags : List (String × String)) (vmSpec : Spec) (nicID : Option String)
    (gk1 gk2 pw1 pw2 : String) (h : vmSpec.SSHKeyData ≠ "") :
    scrubAdminPassword (buildVirtualMachine location tags vmSpec nicID gk1 pw1) =
      scrubAdminPassword (buildVirtualMachine location tags vmSpec nicID gk2 pw2) := by
  cases hsp : generateStorageProfile vmSpec with
  | error e => simp [buildVirtualMachine, hsp, scrubAdminPassword]
  | ok sp =>
    by_cases hz : vmSpec.Zone = "" <;>
      simp [buildVirtualMachine, hsp, scrubAdminPassword, h, hz]

/-- Witness for the amended C8: two runs with distinct key and password
draws agree after scrubbing the password. -/
theorem payload_deterministic_except_password_witness :
    vmSpecSSH.SSHKeyData ≠ "" ∧
    scrubAdminPassword
        (buildVirtualMachine "eastus" [] vmSpecSSH (some "nic-id") "gk-one" "pw-one") =
      scrubAdminPassword
        (buildVirtualMachine "eastus" [] vmSpecSSH (some "nic-id") "gk-two" "pw-two") :=
  ⟨by decide,
   payload_deterministic_except_password "eastus" [] vmSpecSSH (some "nic-id")
     "gk-one" "gk-two" "pw-one" "pw-two" (by decide)⟩

end VirtualMachines
